import Mathlib

/-!
# Echo Flow booking API — shallow embedding and verification

This file embeds the scheduling core of the Echo Flow HTTP service
(`src/unnamed/part_000`; `src/server.js` is an older, reduced variant of the
same server) and settles the spec claims about it.

Modelling conventions:
* Instants are nonnegative integers of milliseconds, read in the local frame
  of the business timezone (the JS code calls `Date#getDay` and
  `Date#getHours`, which report local time; we take local epoch = Thursday
  00:00, matching the Unix epoch weekday, so `dayOfWeek` returns 0 = Sunday
  .. 6 = Saturday like `getDay`).
* The Google Calendar gateway is modelled as explicit state: an opaque list of
  busy intervals (the free/busy feed) plus the list of events.  A free/busy
  query over `[s, e)` returns the busy intervals intersecting that half-open
  range, which is the gateway behaviour the code relies on.
* `await`ed external calls that can throw are modelled by boolean outcome
  flags in the environment; a `false` flag makes the call raise, which the
  `catch` of the route handler turns into an `internal_error` response.  Every
  handler returns its response, the final calendar state, and the ordered
  trace of external calls it attempted.
-/

/-- Business timezone constant (`TIMEZONE`, default `America/New_York`). -/
def TIMEZONE : String := "America/New_York"

def msPerDay : Nat := 86400000

def msPerHour : Nat := 3600000

/-- Candidate step of the slot loop: `const stepMs = 30 * 60 * 1000`. -/
def stepMs : Nat := 1800000

/-- Embeds `d.getDay()`: 0 = Sunday .. 6 = Saturday, local frame (epoch
Thursday). -/
def dayOfWeek (t : Nat) : Nat := (t / msPerDay + 4) % 7

/-- Embeds `d.getHours()`: hour of day 0..23 in the local frame. -/
def hourOfDay (t : Nat) : Nat := t % msPerDay / msPerHour

/-- A busy interval from the calendar free/busy feed (`b.start`, `b.end`). -/
structure BusyInterval where
  start : Nat
  stop : Nat
deriving DecidableEq, Repr

/-- A produced slot: `{ start, end, timezone }`. -/
structure Slot where
  start : Nat
  stop : Nat
  timezone : String
deriving DecidableEq, Repr

/-- The `overlaps` closure of `/vapi/find-slots`:
`busy.some (b => s < b.end && e > b.start)`. -/
def overlaps (busy : List BusyInterval) (s e : Nat) : Bool :=
  busy.any fun b => decide (s < b.stop) && decide (e > b.start)

/-- The slot loop of `/vapi/find-slots`, fuelled.  Mirrors
`for (let t = start; t < end; t += stepMs)` with the weekend `continue`, the
hours `continue`, the overlap-guarded push, and the `slots.length >= 60`
break. -/
def slotLoop (busy : List BusyInterval) (slotDurationMin endMs : Nat) :
    Nat → Nat → List Slot → List Slot
  | 0, _, slots => slots
  | fuel + 1, t, slots =>
    if t < endMs then
      if dayOfWeek t = 0 ∨ dayOfWeek t = 6 then
        slotLoop busy slotDurationMin endMs fuel (t + stepMs) slots
      else if hourOfDay t < 9 ∨ 18 ≤ hourOfDay t then
        slotLoop busy slotDurationMin endMs fuel (t + stepMs) slots
      else
        let e := t + slotDurationMin * 60000
        let slots' := if overlaps busy t e then slots
                      else slots ++ [⟨t, e, TIMEZONE⟩]
        if 60 ≤ slots'.length then slots'
        else slotLoop busy slotDurationMin endMs fuel (t + stepMs) slots'
    else slots

/-- The slot computation of `/vapi/find-slots` as a function of the window,
the slot duration in minutes, and the busy set returned by the free/busy
query.  The fuel `(endMs - startMs) / stepMs + 1` covers every candidate
`startMs + k * stepMs < endMs`. -/
def findSlots (startMs endMs slotDurationMin : Nat) (busy : List BusyInterval) :
    List Slot :=
  slotLoop busy slotDurationMin endMs ((endMs - startMs) / stepMs + 1) startMs []

/-- Shared phone normalisation:
`digits = String(p).replace(/\D/g, ""); digits.startsWith("1") ? "+"+digits : "+1"+digits`.
The single-character prefix test `digits.startsWith("1")` is embedded as
"the first character of `digits` is `'1'`". -/
def e164 (p : String) : String :=
  let digits := p.toList.filter Char.isDigit
  if digits.head? = some '1' then "+" ++ String.mk digits
  else "+1" ++ String.mk digits

/-- A calendar event as stored by the gateway. -/
structure CalEvent where
  id : String
  summary : String
  description : String
  start : Nat
  stop : Nat
  attendees : List String
  location : String
deriving DecidableEq, Repr

/-- Calendar gateway state: the opaque free/busy feed, the events, and the id
the gateway will assign to the next inserted event. -/
structure CalState where
  busy : List BusyInterval
  events : List CalEvent
  nextId : String
deriving DecidableEq, Repr

/-- Environment of a request: OAuth connectivity, notification-provider
configuration, and the outcome of each `await`ed notification send ( `false`
means the provider call throws). -/
structure Env where
  connected : Bool
  twilioFrom : Bool
  ownerSms : Bool
  sendgridKey : Bool
  customerSmsOk : Bool
  ownerSmsOk : Bool
  emailOk : Bool
deriving DecidableEq, Repr

/-- External calls a handler can attempt, in attempt order. -/
inductive Call where
  | credentialLoad
  | freebusyQuery
  | calendarInsert
  | calendarPatch
  | calendarDelete
  | smsCustomer
  | smsOwner
  | emailSend
deriving DecidableEq, Repr

/-- JS truthiness of an optional string field (`undefined` and `""` are
falsy). -/
def truthy : Option String → Bool
  | none => false
  | some s => !(s == "")

/-- Embeds `isFree`: free/busy query over `[s, e)`, then
`busy.length === 0`.  The
gateway returns the busy intervals intersecting the queried half-open
range. -/
def isFree (st : CalState) (s e : Nat) : Bool :=
  (st.busy.filter fun b => decide (b.start < e) && decide (s < b.stop)) == []

/-- Body of `/vapi/book` (parsed; `requested_start` already converted to an
instant). -/
structure BookReq where
  customer_name : Option String
  customer_phone : Option String
  customer_email : Option String
  service : Option String
  requested_start : Option Nat
  duration_minutes : Option Nat
  notes : Option String
deriving Repr

/-- Responses of the booking-family routes, tagged like the JSON payloads. -/
inductive BookResult where
  | missingFields
  | oauthNotConnected
  | slotUnavailable
  | internalError
  | success (event_id : String) (start_time stop_time : Nat) (timezone : String)
deriving DecidableEq, Repr

/-- Outcome triple of a handler: response, final calendar state, ordered trace
of attempted external calls. -/
abbrev Outcome := BookResult × CalState × List Call

/-- Email step of `/vapi/book`: attempted iff SendGrid is configured and
`customer_email` is truthy; a throw is caught as `internal_error`. -/
def bookEmailStep (req : BookReq) (env : Env) (st : CalState) (ev : CalEvent)
    (tr : List Call) : Outcome :=
  if env.sendgridKey && truthy req.customer_email then
    let tr' := tr ++ [Call.emailSend]
    if !env.emailOk then (.internalError, st, tr')
    else (.success ev.id ev.start ev.stop TIMEZONE, st, tr')
  else (.success ev.id ev.start ev.stop TIMEZONE, st, tr)

/-- Owner-SMS step of `/vapi/book`: attempted iff Twilio and `OWNER_SMS` are
configured. -/
def bookOwnerSmsStep (req : BookReq) (env : Env) (st : CalState) (ev : CalEvent)
    (tr : List Call) : Outcome :=
  if env.twilioFrom && env.ownerSms then
    let tr' := tr ++ [Call.smsOwner]
    if !env.ownerSmsOk then (.internalError, st, tr')
    else bookEmailStep req env st ev tr'
  else bookEmailStep req env st ev tr

/-- Customer-SMS step of `/vapi/book`: attempted iff Twilio is configured. -/
def bookCustomerSmsStep (req : BookReq) (env : Env) (st : CalState)
    (ev : CalEvent) (tr : List Call) : Outcome :=
  if env.twilioFrom then
    let tr' := tr ++ [Call.smsCustomer]
    if !env.customerSmsOk then (.internalError, st, tr')
    else bookOwnerSmsStep req env st ev tr'
  else bookOwnerSmsStep req env st ev tr

/-- The event descriptor `/vapi/book` inserts: summary from service and name,
description from the filtered metadata lines, `location: "(online demo)"`. -/
def bookEvent (req : BookReq) (st : CalState) (s e : Nat) : CalEvent :=
  let service := req.service.getD
    "Setup with Laith - personalize your AI assistant (30-minute)"
  let summary := service ++
    (if truthy req.customer_name then " - " ++ req.customer_name.getD "" else "")
  let lines : List (Option String) :=
    [some "Booked by Echo (Echo Flow).",
     if truthy req.customer_name then some ("Customer: " ++ req.customer_name.getD "")
     else none,
     some ("Phone: " ++ req.customer_phone.getD ""),
     if truthy req.customer_email then some ("Email: " ++ req.customer_email.getD "")
     else none,
     if truthy req.notes then some ("Notes: " ++ req.notes.getD "") else none]
  { id := st.nextId
    summary := summary
    description := String.intercalate "\n" (lines.filterMap id)
    start := s
    stop := e
    attendees := if truthy req.customer_email then [req.customer_email.getD ""]
                 else []
    location := "(online demo)" }

/-- Handler of `/vapi/book`: validation, `requireCalendar`, `isFree`
re-check, `events.insert`, then the three notification sends inside the same
`try`/`catch`. -/
def book (req : BookReq) (env : Env) (st : CalState) : Outcome :=
  if !(truthy req.customer_phone) || req.requested_start.isNone then
    (.missingFields, st, [])
  else
    let tr0 := [Call.credentialLoad]
    if !env.connected then (.oauthNotConnected, st, tr0)
    else
      let s := req.requested_start.getD 0
      let dur := req.duration_minutes.getD 30
      let e := s + dur * 60000
      let tr1 := tr0 ++ [Call.freebusyQuery]
      if !(isFree st s e) then (.slotUnavailable, st, tr1)
      else
        let ev := bookEvent req st s e
        let st' := { st with events := st.events ++ [ev] }
        bookCustomerSmsStep req env st' ev (tr1 ++ [Call.calendarInsert])

/-- Body of `/vapi/reschedule` (parsed). -/
structure RescheduleReq where
  appointmentId : Option String
  newStart : Option Nat
  duration_minutes : Option Nat
  notes : Option String
deriving Repr

/-- Gateway `events.patch` applied to the event list: the matching event gets the new
start/end, and the description is replaced only when the patch body carries
one (`notes || undefined` drops the key for empty notes). -/
def patchEvents (events : List CalEvent) (eid : String) (s e : Nat)
    (notes : String) : List CalEvent :=
  events.map fun ev =>
    if ev.id == eid then
      { ev with start := s, stop := e,
                description := if notes == "" then ev.description else notes }
    else ev

/-- Handler of `/vapi/reschedule`: validation, `requireCalendar`, `isFree` on
the new interval, `events.patch`, owner SMS, success with the id of the
patched event.  A patch against an unknown id is a gateway error caught as
`internal_error`. -/
def reschedule (req : RescheduleReq) (env : Env) (st : CalState) : Outcome :=
  if !(truthy req.appointmentId) || req.newStart.isNone then
    (.missingFields, st, [])
  else
    let tr0 := [Call.credentialLoad]
    if !env.connected then (.oauthNotConnected, st, tr0)
    else
      let eid := req.appointmentId.getD ""
      let s := req.newStart.getD 0
      let dur := req.duration_minutes.getD 30
      let e := s + dur * 60000
      let tr1 := tr0 ++ [Call.freebusyQuery]
      if !(isFree st s e) then (.slotUnavailable, st, tr1)
      else
        let tr2 := tr1 ++ [Call.calendarPatch]
        match st.events.find? (fun ev => ev.id == eid) with
        | none => (.internalError, st, tr2)
        | some ev0 =>
          let notes := req.notes.getD ""
          let evNew := { ev0 with start := s, stop := e,
                                  description := if notes == "" then ev0.description
                                                 else notes }
          let st' := { st with events := patchEvents st.events eid s e notes }
          if env.twilioFrom && env.ownerSms then
            let tr3 := tr2 ++ [Call.smsOwner]
            if !env.ownerSmsOk then (.internalError, st', tr3)
            else (.success evNew.id s e TIMEZONE, st', tr3)
          else (.success evNew.id s e TIMEZONE, st', tr2)

/-- The instant `t` passes the business-hour guards of the loop: a weekday
with local hour in 9..17 (the checks `dow !== 0 && dow !== 6` and
`9 <= hr < 18` in the code). -/
def inBusinessHours (t : Nat) : Prop :=
  dayOfWeek t ≠ 0 ∧ dayOfWeek t ≠ 6 ∧ 9 ≤ hourOfDay t ∧ hourOfDay t < 18

/-- Spec-side reading of claim C1: the entire half-open interval of the slot
lies within business hours. -/
def slotWithinBusinessHours (slot : Slot) : Prop :=
  ∀ t, slot.start ≤ t → t < slot.stop → inBusinessHours t

/-- Invariant satisfied by every slot the loop appends after position `t0`. -/
def goodSlot (slotDurationMin endMs t0 : Nat) (busy : List BusyInterval)
    (slot : Slot) : Prop :=
  t0 ≤ slot.start ∧ slot.start < endMs ∧
  slot.stop = slot.start + slotDurationMin * 60000 ∧
  slot.timezone = TIMEZONE ∧ inBusinessHours slot.start ∧
  overlaps busy slot.start slot.stop = false

-- Concrete fixtures for witnesses and counterexamples.  378000000 ms is
-- Monday 09:00 in the local frame; 408600000 ms is Monday 17:30.

def stEmpty : CalState := { busy := [], events := [], nextId := "evt1" }

def stBusy : CalState :=
  { busy := [{ start := 378000000, stop := 378900000 }], events := [],
    nextId := "evt1" }

def reqBase : BookReq :=
  { customer_name := none, customer_phone := some "8135551234",
    customer_email := none, service := none,
    requested_start := some 378000000, duration_minutes := some 30,
    notes := none }

def reqDurZero : BookReq := { reqBase with duration_minutes := some 0 }

def reqNoDur : BookReq := { reqBase with duration_minutes := none }

def reqEmail : BookReq :=
  { reqBase with customer_email := some "ada@example.com" }

def envOff : Env :=
  { connected := false, twilioFrom := false, ownerSms := false,
    sendgridKey := false, customerSmsOk := true, ownerSmsOk := true,
    emailOk := true }

def envQuiet : Env := { envOff with connected := true }

def envSmsFail : Env :=
  { connected := true, twilioFrom := true, ownerSms := true,
    sendgridKey := true, customerSmsOk := false, ownerSmsOk := true,
    emailOk := true }

def evA : CalEvent :=
  { id := "appt1", summary := "Setup Demo - Ada", description := "old notes",
    start := 378000000, stop := 379800000, attendees := ["ada@example.com"],
    location := "(online demo)" }

def stOne : CalState := { busy := [], events := [evA], nextId := "evt2" }

def reqResched : RescheduleReq :=
  { appointmentId := some "appt1", newStart := some 379800000,
    duration_minutes := none, notes := some "moved" }

lemma goodSlot_mono {d endMs t busy slot}
    (h : goodSlot d endMs (t + stepMs) busy slot) :
    goodSlot d endMs t busy slot :=
  ⟨le_trans (Nat.le_add_right t stepMs) h.1, h.2⟩

/-- Every slot in the output of the loop was in the accumulator already or
satisfies the loop invariant from the current position. -/
lemma slotLoop_mem {busy : List BusyInterval} {d endMs : Nat} :
    ∀ (fuel t : Nat) (acc : List Slot) (slot : Slot),
      slot ∈ slotLoop busy d endMs fuel t acc →
      slot ∈ acc ∨ goodSlot d endMs t busy slot := by
  intro fuel
  induction fuel with
  | zero =>
    intro t acc slot h
    exact Or.inl (by simpa [slotLoop] using h)
  | succ n ih =>
    intro t acc slot h
    simp only [slotLoop] at h
    by_cases h1 : t < endMs
    · rw [if_pos h1] at h
      by_cases h2 : dayOfWeek t = 0 ∨ dayOfWeek t = 6
      · rw [if_pos h2] at h
        rcases ih _ _ _ h with hacc | hgood
        · exact Or.inl hacc
        · exact Or.inr (goodSlot_mono hgood)
      · rw [if_neg h2] at h
        by_cases h3 : hourOfDay t < 9 ∨ 18 ≤ hourOfDay t
        · rw [if_pos h3] at h
          rcases ih _ _ _ h with hacc | hgood
          · exact Or.inl hacc
          · exact Or.inr (goodSlot_mono hgood)
        · rw [if_neg h3] at h
          push_neg at h2 h3
          by_cases hov : overlaps busy t (t + d * 60000) = true
          · rw [if_pos hov] at h
            by_cases h4 : 60 ≤ acc.length
            · rw [if_pos h4] at h
              exact Or.inl h
            · rw [if_neg h4] at h
              rcases ih _ _ _ h with hacc | hgood
              · exact Or.inl hacc
              · exact Or.inr (goodSlot_mono hgood)
          · rw [if_neg hov] at h
            have hnew : goodSlot d endMs t busy ⟨t, t + d * 60000, TIMEZONE⟩ :=
              ⟨Nat.le_refl t, h1, rfl, rfl, ⟨h2.1, h2.2, h3.1, h3.2⟩,
               Bool.eq_false_iff.mpr hov⟩
            by_cases h4 : 60 ≤ (acc ++ [(⟨t, t + d * 60000, TIMEZONE⟩ : Slot)]).length
            · rw [if_pos h4] at h
              rcases List.mem_append.mp h with hacc | hsing
              · exact Or.inl hacc
              · exact Or.inr (List.mem_singleton.mp hsing ▸ hnew)
            · rw [if_neg h4] at h
              rcases ih _ _ _ h with hacc | hgood
              · rcases List.mem_append.mp hacc with hacc' | hsing
                · exact Or.inl hacc'
                · exact Or.inr (List.mem_singleton.mp hsing ▸ hnew)
              · exact Or.inr (goodSlot_mono hgood)
    · rw [if_neg h1] at h
      exact Or.inl h

/-- The loop never grows the accumulator past 60 entries. -/
lemma slotLoop_length {busy : List BusyInterval} {d endMs : Nat} :
    ∀ (fuel t : Nat) (acc : List Slot), acc.length ≤ 59 →
      (slotLoop busy d endMs fuel t acc).length ≤ 60 := by
  intro fuel
  induction fuel with
  | zero =>
    intro t acc hacc
    simpa [slotLoop] using Nat.le_succ_of_le hacc
  | succ n ih =>
    intro t acc hacc
    simp only [slotLoop]
    by_cases h1 : t < endMs
    · rw [if_pos h1]
      by_cases h2 : dayOfWeek t = 0 ∨ dayOfWeek t = 6
      · rw [if_pos h2]; exact ih _ _ hacc
      · rw [if_neg h2]
        by_cases h3 : hourOfDay t < 9 ∨ 18 ≤ hourOfDay t
        · rw [if_pos h3]; exact ih _ _ hacc
        · rw [if_neg h3]
          by_cases hov : overlaps busy t (t + d * 60000) = true
          · rw [if_pos hov]
            by_cases h4 : 60 ≤ acc.length
            · rw [if_pos h4]; omega
            · rw [if_neg h4]; exact ih _ _ hacc
          · rw [if_neg hov]
            by_cases h4 : 60 ≤ (acc ++ [(⟨t, t + d * 60000, TIMEZONE⟩ : Slot)]).length
            · rw [if_pos h4]
              simp only [List.length_append, List.length_singleton]
              omega
            · rw [if_neg h4]
              refine ih _ _ ?_
              simp only [List.length_append, List.length_singleton] at h4 ⊢
              omega
    · rw [if_neg h1]
      omega

/-- Specialisation of the loop invariant to `findSlots` (empty accumulator). -/
lemma findSlots_mem {startMs endMs d : Nat} {busy : List BusyInterval}
    {slot : Slot} (h : slot ∈ findSlots startMs endMs d busy) :
    goodSlot d endMs startMs busy slot := by
  rcases slotLoop_mem _ _ _ _ h with hacc | hgood
  · simp at hacc
  · exact hgood

/-- C1 counterexample: with window Monday 17:30–19:00, no busy data, and a
60-minute slot duration, find-slots returns the slot 17:30–18:30, whose
interval does not lie entirely within Monday–Friday 09:00–18:00 (the instant
18:29:59.999 falls at hour 18). -/
theorem findSlots_full_interval_cex :
    findSlots 408600000 414000000 60 [] =
      [⟨408600000, 412200000, TIMEZONE⟩] ∧
    ¬ slotWithinBusinessHours ⟨408600000, 412200000, TIMEZONE⟩ := by
  refine ⟨by decide, fun h => ?_⟩
  have h18 : hourOfDay 412199999 = 18 := by decide
  have hlt := (h 412199999 (by decide) (by decide)).2.2.2
  omega

/-- C1 (amended): every slot returned by find-slots has its start instant
within Monday–Friday 09:00–18:00 business hours, and its end is start plus
the slot duration; the full interval is not checked and may extend past
18:00. -/
theorem findSlots_start_in_business_hours (startMs endMs d : Nat)
    (busy : List BusyInterval) (slot : Slot)
    (h : slot ∈ findSlots startMs endMs d busy) :
    inBusinessHours slot.start ∧ slot.stop = slot.start + d * 60000 := by
  have hg := findSlots_mem h
  exact ⟨hg.2.2.2.2.1, hg.2.2.1⟩

/-- C1 witness: the Monday 09:00–10:00 scenario slot instantiates the amended
theorem. -/
theorem findSlots_start_in_business_hours_witness :
    inBusinessHours (378000000 : Nat) ∧
    (379800000 : Nat) = 378000000 + 30 * 60000 :=
  findSlots_start_in_business_hours 378000000 381600000 30 []
    ⟨378000000, 379800000, TIMEZONE⟩ (by decide)

/-- C5: no slot returned by find-slots overlaps any busy interval of the busy
set, under the half-open test `slotStart < busyEnd AND slotEnd >
busyStart`. -/
theorem findSlots_no_overlap (startMs endMs d : Nat) (busy : List BusyInterval)
    (slot : Slot) (h : slot ∈ findSlots startMs endMs d busy)
    (b : BusyInterval) (hb : b ∈ busy) :
    ¬ (slot.start < b.stop ∧ slot.stop > b.start) := by
  have hov := (findSlots_mem h).2.2.2.2.2
  intro hcon
  have htrue : overlaps busy slot.start slot.stop = true := by
    simp only [overlaps, List.any_eq_true]
    exact ⟨b, hb, by simp [hcon.1, hcon.2]⟩
  simp [htrue] at hov

/-- C5 witness: the Monday 09:00 slot against a busy interval ending well
before the window. -/
theorem findSlots_no_overlap_witness :
    ¬ ((378000000 : Nat) < 1000 ∧ (379800000 : Nat) > 0) :=
  findSlots_no_overlap 378000000 381600000 30 [⟨0, 1000⟩]
    ⟨378000000, 379800000, TIMEZONE⟩ (by decide) ⟨0, 1000⟩ (by decide)

/-- C7: find-slots returns at most 60 slots, and the candidate start of every
returned slot lies inside the window (the loop stops at 60 results or at the
window end). -/
theorem findSlots_result_bound (startMs endMs d : Nat)
    (busy : List BusyInterval) :
    (findSlots startMs endMs d busy).length ≤ 60 ∧
    ∀ slot ∈ findSlots startMs endMs d busy,
      startMs ≤ slot.start ∧ slot.start < endMs := by
  refine ⟨slotLoop_length _ _ _ (by simp), fun slot h => ?_⟩
  have hg := findSlots_mem h
  exact ⟨hg.1, hg.2.1⟩

/-- C7 witness: instantiation at the Monday 09:00–10:00 scenario. -/
theorem findSlots_result_bound_witness :
    (findSlots 378000000 381600000 30 []).length ≤ 60 ∧
    ((378000000 : Nat) ≤ 378000000 ∧ (378000000 : Nat) < 381600000) :=
  ⟨(findSlots_result_bound 378000000 381600000 30 []).1,
   (findSlots_result_bound 378000000 381600000 30 []).2
     ⟨378000000, 379800000, TIMEZONE⟩ (by decide)⟩

/-- C8: the slot computation is a deterministic function of the window, the
slot duration, and the busy set: two calls with identical inputs yield the
identical ordered slot sequence. -/
theorem findSlots_deterministic (s₁ e₁ d₁ s₂ e₂ d₂ : Nat)
    (b₁ b₂ : List BusyInterval)
    (hs : s₁ = s₂) (he : e₁ = e₂) (hd : d₁ = d₂) (hb : b₁ = b₂) :
    findSlots s₁ e₁ d₁ b₁ = findSlots s₂ e₂ d₂ b₂ := by
  rw [hs, he, hd, hb]

/-- C8 witness: two identical calls at the Monday scenario agree. -/
theorem findSlots_deterministic_witness :
    findSlots 378000000 381600000 30 [] =
    findSlots 378000000 381600000 30 [] :=
  findSlots_deterministic 378000000 381600000 30 378000000 381600000 30 [] []
    rfl rfl rfl rfl

/-- C6: e164 keeps exactly the digit characters of the input and prefixes
`+` when they start with `1`, `+1` otherwise; in particular the three
spec examples hold. -/
theorem e164_normalisation :
    (∀ p : String,
      ((p.toList.filter Char.isDigit).head? = some '1' →
        e164 p = "+" ++ String.mk (p.toList.filter Char.isDigit)) ∧
      ((p.toList.filter Char.isDigit).head? ≠ some '1' →
        e164 p = "+1" ++ String.mk (p.toList.filter Char.isDigit))) ∧
    e164 "8135551234" = "+18135551234" ∧
    e164 "+18135551234" = "+18135551234" ∧
    e164 "18135551234" = "+18135551234" := by
  refine ⟨fun p => ⟨fun h => ?_, fun h => ?_⟩, by decide, by decide, by decide⟩
  · simp only [e164]
    rw [if_pos h]
  · simp only [e164]
    rw [if_neg h]

/-- C6 witness: the no-leading-1 branch applied to "8135551234". -/
theorem e164_normalisation_witness :
    e164 "8135551234" =
      "+1" ++ String.mk ("8135551234".toList.filter Char.isDigit) :=
  (e164_normalisation.1 "8135551234").2 (by decide)

lemma isFree_eq_false_of_overlap {st : CalState} {s e : Nat} {b : BusyInterval}
    (hb : b ∈ st.busy) (h1 : b.start < e) (h2 : s < b.stop) :
    isFree st s e = false := by
  have hmem : b ∈ st.busy.filter
      (fun b => decide (b.start < e) && decide (s < b.stop)) :=
    List.mem_filter.mpr ⟨hb, by simp [h1, h2]⟩
  have hne := List.ne_nil_of_mem hmem
  simpa [isFree] using hne

lemma bookEmailStep_success (req : BookReq) (env : Env) (st : CalState)
    (ev : CalEvent) (tr : List Call)
    (h3 : env.sendgridKey = true → truthy req.customer_email = true →
      env.emailOk = true) :
    (bookEmailStep req env st ev tr).1 =
      .success ev.id ev.start ev.stop TIMEZONE ∧
    (bookEmailStep req env st ev tr).2.1 = st := by
  by_cases hc : (env.sendgridKey && truthy req.customer_email) = true
  · have hok := h3 (Bool.and_eq_true _ _ |>.mp hc).1 (Bool.and_eq_true _ _ |>.mp hc).2
    simp [bookEmailStep, hc, hok]
  · rw [Bool.not_eq_true] at hc
    simp [bookEmailStep, hc]

lemma bookOwnerSmsStep_success (req : BookReq) (env : Env) (st : CalState)
    (ev : CalEvent) (tr : List Call)
    (h2 : env.twilioFrom = true → env.ownerSms = true → env.ownerSmsOk = true)
    (h3 : env.sendgridKey = true → truthy req.customer_email = true →
      env.emailOk = true) :
    (bookOwnerSmsStep req env st ev tr).1 =
      .success ev.id ev.start ev.stop TIMEZONE ∧
    (bookOwnerSmsStep req env st ev tr).2.1 = st := by
  by_cases hc : (env.twilioFrom && env.ownerSms) = true
  · have hok := h2 (Bool.and_eq_true _ _ |>.mp hc).1 (Bool.and_eq_true _ _ |>.mp hc).2
    simpa [bookOwnerSmsStep, hc, hok] using bookEmailStep_success req env st ev _ h3
  · rw [Bool.not_eq_true] at hc
    simpa [bookOwnerSmsStep, hc] using bookEmailStep_success req env st ev tr h3

lemma bookCustomerSmsStep_success (req : BookReq) (env : Env) (st : CalState)
    (ev : CalEvent) (tr : List Call)
    (h1 : env.twilioFrom = true → env.customerSmsOk = true)
    (h2 : env.twilioFrom = true → env.ownerSms = true → env.ownerSmsOk = true)
    (h3 : env.sendgridKey = true → truthy req.customer_email = true →
      env.emailOk = true) :
    (bookCustomerSmsStep req env st ev tr).1 =
      .success ev.id ev.start ev.stop TIMEZONE ∧
    (bookCustomerSmsStep req env st ev tr).2.1 = st := by
  by_cases hc : env.twilioFrom = true
  · have hok := h1 hc
    simpa [bookCustomerSmsStep, hc, hok] using
      bookOwnerSmsStep_success req env st ev _ h2 h3
  · rw [Bool.not_eq_true] at hc
    simpa [bookCustomerSmsStep, hc] using
      bookOwnerSmsStep_success req env st ev tr h2 h3

lemma patchEvents_frame (events : List CalEvent) (eid : String) (s e : Nat)
    (notes : String) :
    ∀ ev' ∈ patchEvents events eid s e notes,
      ∃ ev ∈ events, ev'.id = ev.id ∧ ev'.summary = ev.summary ∧
        ev'.attendees = ev.attendees ∧ ev'.location = ev.location ∧
        (ev.id ≠ eid → ev' = ev) ∧
        (ev.id = eid → ev'.start = s ∧ ev'.stop = e ∧
          ev'.description = (if notes == "" then ev.description else notes)) := by
  intro ev' h
  rcases List.mem_map.mp h with ⟨ev, hev, heq⟩
  by_cases hc : (ev.id == eid) = true
  · have hideq : ev.id = eid := by simpa using hc
    rw [if_pos hc] at heq
    subst heq
    exact ⟨ev, hev, rfl, rfl, rfl, rfl, fun hne => absurd hideq hne,
           fun _ => ⟨rfl, rfl, rfl⟩⟩
  · have hidne : ev.id ≠ eid := by simpa using hc
    rw [if_neg hc] at heq
    subst heq
    exact ⟨ev, hev, rfl, rfl, rfl, rfl, fun _ => rfl,
           fun he => absurd he hidne⟩

/-- C3 (amended): the book operation returns missing_fields, with no external
call attempted, whenever customerPhone or requestedStart is absent (falsy);
a durationMinutes ≤ 0 is not rejected. -/
theorem book_missing_fields (req : BookReq) (env : Env) (st : CalState)
    (h : truthy req.customer_phone = false ∨ req.requested_start = none) :
    book req env st = (.missingFields, st, []) := by
  rcases h with h | h
  · simp [book, h]
  · simp [book, h]

/-- C3 witness: omitting the phone yields missing_fields with an empty call
trace. -/
theorem book_missing_fields_witness :
    book { reqBase with customer_phone := none } envQuiet stEmpty =
      (.missingFields, stEmpty, []) :=
  book_missing_fields _ _ _ (Or.inl (by decide))

/-- C3 counterexample: a request with phone and start present but
duration_minutes = 0 is not rejected as missing_fields: the handler proceeds
to the credential load (an external call) and, with no stored tokens, returns
oauth_not_connected. -/
theorem book_duration_zero_cex :
    reqDurZero.duration_minutes = some 0 ∧
    truthy reqDurZero.customer_phone = true ∧
    reqDurZero.requested_start.isSome = true ∧
    book reqDurZero envOff stEmpty =
      (.oauthNotConnected, stEmpty, [Call.credentialLoad]) := by
  refine ⟨rfl, by decide, rfl, by decide⟩

/-- C4: a booking whose requested interval [start, start+duration) overlaps a
busy interval returns slot_unavailable, leaves the calendar state unchanged,
and attempts no calendar write. -/
theorem book_slot_unavailable (req : BookReq) (env : Env) (st : CalState)
    (s : Nat) (b : BusyInterval)
    (hphone : truthy req.customer_phone = true)
    (hstart : req.requested_start = some s)
    (hconn : env.connected = true)
    (hb : b ∈ st.busy)
    (hov1 : s < b.stop)
    (hov2 : s + req.duration_minutes.getD 30 * 60000 > b.start) :
    book req env st =
      (.slotUnavailable, st, [Call.credentialLoad, Call.freebusyQuery]) := by
  have hfree : isFree st s (s + req.duration_minutes.getD 30 * 60000) = false :=
    isFree_eq_false_of_overlap hb hov2 hov1
  simp [book, hphone, hstart, hconn, hfree]

/-- C4 witness: booking Monday 09:00–09:30 against a busy 09:00–09:15. -/
theorem book_slot_unavailable_witness :
    book reqBase envQuiet stBusy =
      (.slotUnavailable, stBusy, [Call.credentialLoad, Call.freebusyQuery]) :=
  book_slot_unavailable reqBase envQuiet stBusy 378000000
    ⟨378000000, 378900000⟩ (by decide) (by decide) (by decide) (by decide)
    (by decide) (by decide)

/-- C2 (amended): once the insert has succeeded the event stays committed,
but the notification channels are not independent: a failing customer SMS
makes the handler return internal_error (not the success payload) and the
owner SMS and the email are never attempted. -/
theorem book_notification_failure_aborts (req : BookReq) (env : Env)
    (st : CalState) (s : Nat)
    (hphone : truthy req.customer_phone = true)
    (hstart : req.requested_start = some s)
    (hconn : env.connected = true)
    (hfree : isFree st s (s + req.duration_minutes.getD 30 * 60000) = true)
    (htw : env.twilioFrom = true)
    (hfail : env.customerSmsOk = false) :
    (book req env st).1 = .internalError ∧
    (book req env st).2.1.events = st.events ++
      [bookEvent req st s (s + req.duration_minutes.getD 30 * 60000)] ∧
    (book req env st).2.2 =
      [Call.credentialLoad, Call.freebusyQuery, Call.calendarInsert,
       Call.smsCustomer] := by
  simp [book, hphone, hstart, hconn, hfree, bookCustomerSmsStep, htw, hfail]

/-- C2 witness: concrete instantiation of the amended theorem. -/
theorem book_notification_failure_aborts_witness :
    (book reqEmail envSmsFail stEmpty).1 = .internalError ∧
    (book reqEmail envSmsFail stEmpty).2.1.events = stEmpty.events ++
      [bookEvent reqEmail stEmpty 378000000
        (378000000 + reqEmail.duration_minutes.getD 30 * 60000)] ∧
    (book reqEmail envSmsFail stEmpty).2.2 =
      [Call.credentialLoad, Call.freebusyQuery, Call.calendarInsert,
       Call.smsCustomer] :=
  book_notification_failure_aborts reqEmail envSmsFail stEmpty 378000000
    (by decide) (by decide) (by decide) (by decide) (by decide) (by decide)

/-- C2 counterexample: a concrete booking in which the calendar insert
succeeds (one event committed) and the customer SMS fails: the response is
internal_error rather than the success payload, and neither the owner SMS nor
the email is attempted. -/
theorem book_notification_cex :
    (book reqEmail envSmsFail stEmpty).1 = .internalError ∧
    (book reqEmail envSmsFail stEmpty).2.1.events.length = 1 ∧
    Call.calendarInsert ∈ (book reqEmail envSmsFail stEmpty).2.2 ∧
    Call.smsOwner ∉ (book reqEmail envSmsFail stEmpty).2.2 ∧
    Call.emailSend ∉ (book reqEmail envSmsFail stEmpty).2.2 := by
  decide

/-- C10: a book request with phone and start but no duration_minutes is not
rejected; the default duration 30 applies, so the response and the created
event both carry end = start + 30 minutes. -/
theorem book_default_duration (req : BookReq) (env : Env) (st : CalState)
    (s : Nat)
    (hphone : truthy req.customer_phone = true)
    (hstart : req.requested_start = some s)
    (hdur : req.duration_minutes = none)
    (hconn : env.connected = true)
    (hfree : isFree st s (s + 30 * 60000) = true)
    (h1 : env.twilioFrom = true → env.customerSmsOk = true)
    (h2 : env.twilioFrom = true → env.ownerSms = true → env.ownerSmsOk = true)
    (h3 : env.sendgridKey = true → truthy req.customer_email = true →
      env.emailOk = true) :
    (book req env st).1 = .success st.nextId s (s + 30 * 60000) TIMEZONE ∧
    (book req env st).2.1.events =
      st.events ++ [bookEvent req st s (s + 30 * 60000)] ∧
    (bookEvent req st s (s + 30 * 60000)).stop = s + 30 * 60000 := by
  have hbook : book req env st = bookCustomerSmsStep req env
      { st with events := st.events ++ [bookEvent req st s (s + 30 * 60000)] }
      (bookEvent req st s (s + 30 * 60000))
      [Call.credentialLoad, Call.freebusyQuery, Call.calendarInsert] := by
    simp [book, hphone, hstart, hdur, hconn, hfree]
  have hnotify := bookCustomerSmsStep_success req env
    { st with events := st.events ++ [bookEvent req st s (s + 30 * 60000)] }
    (bookEvent req st s (s + 30 * 60000))
    [Call.credentialLoad, Call.freebusyQuery, Call.calendarInsert] h1 h2 h3
  rw [hbook]
  exact ⟨hnotify.1, by rw [hnotify.2], rfl⟩

/-- C10 witness: concrete booking with no duration_minutes field. -/
theorem book_default_duration_witness :
    (book reqNoDur envQuiet stEmpty).1 =
      .success stEmpty.nextId 378000000 (378000000 + 30 * 60000) TIMEZONE ∧
    (book reqNoDur envQuiet stEmpty).2.1.events =
      stEmpty.events ++ [bookEvent reqNoDur stEmpty 378000000
        (378000000 + 30 * 60000)] ∧
    (bookEvent reqNoDur stEmpty 378000000 (378000000 + 30 * 60000)).stop =
      378000000 + 30 * 60000 :=
  book_default_duration reqNoDur envQuiet stEmpty 378000000
    (by decide) (by decide) (by decide) (by decide) (by decide)
    (by decide) (by decide) (by decide)

/-- C9: on a successful reschedule the returned event_id equals the requested
appointmentId; only start, end, and description change, and the id, summary,
attendees, and location of every event are preserved (non-matching events are
fully unchanged). -/
theorem reschedule_frame (req : RescheduleReq) (env : Env) (st : CalState)
    (eid : String) (s : Nat) (ev0 : CalEvent)
    (hidT : truthy req.appointmentId = true)
    (hid : req.appointmentId = some eid)
    (hstart : req.newStart = some s)
    (hconn : env.connected = true)
    (hfree : isFree st s (s + req.duration_minutes.getD 30 * 60000) = true)
    (hfind : st.events.find? (fun ev => ev.id == eid) = some ev0)
    (hsms : env.twilioFrom = true → env.ownerSms = true →
      env.ownerSmsOk = true) :
    (reschedule req env st).1 =
      .success eid s (s + req.duration_minutes.getD 30 * 60000) TIMEZONE ∧
    ∀ ev' ∈ (reschedule req env st).2.1.events,
      ∃ ev ∈ st.events, ev'.id = ev.id ∧ ev'.summary = ev.summary ∧
        ev'.attendees = ev.attendees ∧ ev'.location = ev.location ∧
        (ev.id ≠ eid → ev' = ev) ∧
        (ev.id = eid → ev'.start = s ∧
          ev'.stop = s + req.duration_minutes.getD 30 * 60000 ∧
          ev'.description = (if req.notes.getD "" == "" then ev.description
                             else req.notes.getD "")) := by
  have hid0 : ev0.id = eid := by simpa using List.find?_some hfind
  have hidT2 : truthy (some eid) = true := by rw [← hid]; exact hidT
  have hcompute : (reschedule req env st).1 =
      .success ev0.id s (s + req.duration_minutes.getD 30 * 60000) TIMEZONE ∧
      (reschedule req env st).2.1.events =
        patchEvents st.events eid s
          (s + req.duration_minutes.getD 30 * 60000) (req.notes.getD "") := by
    by_cases hc : (env.twilioFrom && env.ownerSms) = true
    · have hok := hsms (Bool.and_eq_true _ _ |>.mp hc).1
        (Bool.and_eq_true _ _ |>.mp hc).2
      simp [reschedule, hidT2, hid, hstart, hconn, hfree, hfind, hc, hok]
    · rw [Bool.not_eq_true] at hc
      simp [reschedule, hidT2, hid, hstart, hconn, hfree, hfind, hc]
  refine ⟨hid0 ▸ hcompute.1, ?_⟩
  rw [hcompute.2]
  exact patchEvents_frame st.events eid s
    (s + req.duration_minutes.getD 30 * 60000) (req.notes.getD "")

/-- C9 witness: rescheduling the fixture appointment to Monday 09:30 returns
its own id with the new interval. -/
theorem reschedule_frame_witness :
    (reschedule reqResched envQuiet stOne).1 =
      .success "appt1" 379800000
        (379800000 + reqResched.duration_minutes.getD 30 * 60000) TIMEZONE :=
  (reschedule_frame reqResched envQuiet stOne "appt1" 379800000 evA
    (by decide) (by decide) (by decide) (by decide) (by decide) (by decide)
    (by decide)).1

-- Sanity checks against the §8 spec scenarios.

example :
    findSlots 378000000 381600000 30 [] =
      [⟨378000000, 379800000, TIMEZONE⟩, ⟨379800000, 381600000, TIMEZONE⟩] := by
  decide

example : findSlots 205200000 234000000 30 [] = [] := by decide

example : e164 "8135551234" = "+18135551234" := by decide

example : e164 "18135551234" = "+18135551234" := by decide
